import Mathlib

/-!
Verification of the backlight-interface resolution engine from
`drivers/acpi/video_detect.c` (Linux 5.14-series derivative).

The C file is shallowly embedded: the process-wide mutable statics become an
explicit `ResolutionState` record threaded through the operations, the external
collaborators (DMI identity strings, the ACPI namespace walk, the nvidia WMI
query, `acpi_osi_is_win8`, the cros-EC presence check, the Trident PCI probe)
become a read-only `Env` record fixed for the process lifetime, and the two
public entry points `__acpi_video_get_backlight_type` and
`acpi_video_set_dmi_backlight_type` become state-passing functions.
-/

namespace VideoDetect

/-- `enum acpi_backlight_type` from `include/acpi/video.h`. -/
inductive BacklightType where
  | undef
  | none
  | video
  | vendor
  | native
  | nvidia_wmi_ec
deriving DecidableEq, Repr

/-- The DMI identity slots consulted by the quirk table
(`DMI_SYS_VENDOR`, `DMI_PRODUCT_NAME`, `DMI_PRODUCT_VERSION`,
`DMI_BOARD_NAME`, `DMI_BIOS_VERSION`). -/
inductive DmiField where
  | sys_vendor
  | product_name
  | product_version
  | board_name
  | bios_version
deriving DecidableEq, Repr

/-- The platform identity strings exposed by the DMI layer; a slot the
firmware did not populate is `Option.none`. -/
structure SystemIdentity where
  sys_vendor : Option String
  product_name : Option String
  product_version : Option String
  board_name : Option String
  bios_version : Option String
deriving DecidableEq, Repr

def SystemIdentity.get (id : SystemIdentity) : DmiField → Option String
  | .sys_vendor => id.sys_vendor
  | .product_name => id.product_name
  | .product_version => id.product_version
  | .board_name => id.board_name
  | .bios_version => id.bios_version

/-- `listStartsWith p s` is true when `p` occurs at the front of `s`. -/
def listStartsWith : List Char → List Char → Bool
  | [], _ => true
  | _ :: _, [] => false
  | p :: ps, c :: cs => p == c && listStartsWith ps cs

/-- `listHasSub p s` is true when `p` occurs contiguously somewhere in `s`
(the `strstr` test used by `DMI_MATCH`). -/
def listHasSub (pat : List Char) : List Char → Bool
  | [] => listStartsWith pat []
  | c :: cs => listStartsWith pat (c :: cs) || listHasSub pat cs

def strHasSub (pat s : String) : Bool := listHasSub pat.toList s.toList

/-- `DMI_MATCH` (substring) versus `DMI_EXACT_MATCH` (full equality). -/
inductive MatchKind where
  | exact
  | substr
deriving DecidableEq, Repr

/-- One slot of a `dmi_system_id.matches` array. -/
structure FieldMatch where
  field : DmiField
  kind : MatchKind
  pattern : String
deriving DecidableEq, Repr

/-- A populated identity slot satisfies an exact predicate when the strings
are equal, and a substring predicate when the pattern occurs in the value;
a missing slot fails the predicate. -/
def FieldMatch.matches (fm : FieldMatch) (id : SystemIdentity) : Bool :=
  match id.get fm.field with
  | Option.none => false
  | Option.some s =>
    match fm.kind with
    | .exact => fm.pattern == s
    | .substr => strHasSub fm.pattern s

/-- External collaborator outcomes, fixed for the process lifetime:
the boot command-line token, the DMI identity, whether the ACPI namespace
walk accumulated the `ACPI_VIDEO_BACKLIGHT` capability bit, the result of
`nvidia_wmi_ec_supported()`, `acpi_osi_is_win8()`,
`google_cros_ec_present()`, and whether the Trident CyberBlade XP4m32 PCI
device (vendor `PCI_VENDOR_ID_TRIDENT`, device `0x2100`) is present. -/
structure Env where
  acpi_video_backlight_string : String
  ident : SystemIdentity
  videoCapsScan : Bool
  nvidiaWmiEc : Bool
  osiWin8 : Bool
  crosEc : Bool
  tridentPresent : Bool

/-- A quirk rule action: either a fixed type committed on match
(`video_detect_force_vendor` / `_video` / `_native`), or a gated action that
commits only when its secondary hardware probe succeeds
(`video_detect_portege_r100`, gated on the Trident PCI scan). -/
inductive QuirkAction where
  | fixed : BacklightType → QuirkAction
  | gated : (Env → Bool) → BacklightType → QuirkAction

/-- One entry of `video_detect_dmi_table`: a conjunction of field
predicates plus an action. -/
structure QuirkRule where
  fieldMatches : List FieldMatch
  action : QuirkAction

/-- All field predicates of the rule hold on this identity. -/
def QuirkRule.matchesId (r : QuirkRule) (id : SystemIdentity) : Bool :=
  r.fieldMatches.all (fun fm => fm.matches id)

/-- The rule commits: its predicates all hold and its gated probe, if any,
succeeds. -/
def QuirkRule.commits (r : QuirkRule) (env : Env) (id : SystemIdentity) : Bool :=
  r.matchesId id &&
    (match r.action with
     | .fixed _ => true
     | .gated probe _ => probe env)

def QuirkAction.result : QuirkAction → BacklightType
  | .fixed t => t
  | .gated _ t => t

/-- Modelled from the spec: the matching engine `dmi_check_system` is not
part of the sources here (only the table and its callbacks are), so its
resolution semantics follow §4.2 of the design: iterate the ordered rule
list; the first rule whose predicate conjunction is fully satisfied and
whose gated probe, if any, succeeds determines the override and no further
rules are evaluated; a rule with a failing predicate or failing probe
contributes nothing and evaluation continues; `Option.none` when no rule
commits. -/
def dmi_resolve (env : Env) : List QuirkRule → SystemIdentity → Option BacklightType
  | [], _ => Option.none
  | r :: rs, id =>
    if r.commits env id then Option.some r.action.result else dmi_resolve env rs id

/-- Modelled from the spec (with `dmi_resolve`): the number of rules
examined before resolution stops, used to state that no rule after the
first committing one is evaluated. -/
def dmi_resolve_examined (env : Env) : List QuirkRule → SystemIdentity → Nat
  | [], _ => 0
  | r :: rs, id =>
    if r.commits env id then 1 else 1 + dmi_resolve_examined env rs id

/-- The `DMI_MATCH` macro: substring predicate. -/
def dmi_match (f : DmiField) (p : String) : FieldMatch :=
  { field := f, kind := .substr, pattern := p }

/-- The `DMI_EXACT_MATCH` macro: exact-equality predicate. -/
def dmi_exact_match (f : DmiField) (p : String) : FieldMatch :=
  { field := f, kind := .exact, pattern := p }

/-- Callback `video_detect_force_vendor`. -/
def video_detect_force_vendor : QuirkAction := .fixed .vendor

/-- Callback `video_detect_force_video`. -/
def video_detect_force_video : QuirkAction := .fixed .video

/-- Callback `video_detect_force_native`. -/
def video_detect_force_native : QuirkAction := .fixed .native

/-- Callback `video_detect_portege_r100`: commits `vendor` only when the
Trident CyberBlade XP4m32 PCI device is found. -/
def video_detect_portege_r100 : QuirkAction :=
  .gated (fun env => env.tridentPresent) .vendor

/-- `video_detect_dmi_table`, entries in declaration order. -/
def video_detect_dmi_table : List QuirkRule := [
  -- Samsung X360
  { fieldMatches := [dmi_match .sys_vendor "SAMSUNG ELECTRONICS CO., LTD.",
                     dmi_match .product_name "X360",
                     dmi_match .board_name "X360"],
    action := video_detect_force_vendor },
  -- Asus UL30VT
  { fieldMatches := [dmi_match .sys_vendor "ASUSTeK Computer Inc.",
                     dmi_match .product_name "UL30VT"],
    action := video_detect_force_vendor },
  -- Asus UL30A
  { fieldMatches := [dmi_match .sys_vendor "ASUSTeK Computer Inc.",
                     dmi_match .product_name "UL30A"],
    action := video_detect_force_vendor },
  -- GIGABYTE GB-BXBT-2807
  { fieldMatches := [dmi_match .sys_vendor "GIGABYTE",
                     dmi_match .product_name "GB-BXBT-2807"],
    action := video_detect_force_vendor },
  -- Sony VPCEH3U1E
  { fieldMatches := [dmi_match .sys_vendor "Sony Corporation",
                     dmi_match .product_name "VPCEH3U1E"],
    action := video_detect_force_vendor },
  -- Dell Vostro 15 3535
  { fieldMatches := [dmi_match .sys_vendor "Dell Inc.",
                     dmi_match .product_name "Vostro 15 3535"],
    action := video_detect_force_native },
  -- Toshiba Portege R100 (generic strings, gated on the VGA chip probe)
  { fieldMatches := [dmi_match .sys_vendor "TOSHIBA",
                     dmi_match .product_name "Portable PC",
                     dmi_match .product_version "Version 1.0",
                     dmi_match .board_name "Portable PC"],
    action := video_detect_portege_r100 },
  -- Apple iMac14,1
  { fieldMatches := [dmi_match .sys_vendor "Apple Inc.",
                     dmi_match .product_name "iMac14,1"],
    action := video_detect_force_video },
  -- Apple iMac14,2
  { fieldMatches := [dmi_match .sys_vendor "Apple Inc.",
                     dmi_match .product_name "iMac14,2"],
    action := video_detect_force_video },
  -- ThinkPad W530
  { fieldMatches := [dmi_match .sys_vendor "LENOVO",
                     dmi_match .product_version "ThinkPad W530"],
    action := video_detect_force_video },
  -- ThinkPad T420
  { fieldMatches := [dmi_match .sys_vendor "LENOVO",
                     dmi_match .product_version "ThinkPad T420"],
    action := video_detect_force_video },
  -- ThinkPad T520
  { fieldMatches := [dmi_match .sys_vendor "LENOVO",
                     dmi_match .product_version "ThinkPad T520"],
    action := video_detect_force_video },
  -- ThinkPad X201s
  { fieldMatches := [dmi_match .sys_vendor "LENOVO",
                     dmi_match .product_version "ThinkPad X201s"],
    action := video_detect_force_video },
  -- ThinkPad X201T
  { fieldMatches := [dmi_match .sys_vendor "LENOVO",
                     dmi_match .product_version "ThinkPad X201T"],
    action := video_detect_force_video },
  -- HP ENVY 15 Notebook
  { fieldMatches := [dmi_match .sys_vendor "Hewlett-Packard",
                     dmi_match .product_name "HP ENVY 15 Notebook PC"],
    action := video_detect_force_video },
  -- SAMSUNG 870Z5E/880Z5E/680Z5E
  { fieldMatches := [dmi_match .sys_vendor "SAMSUNG ELECTRONICS CO., LTD.",
                     dmi_match .product_name "870Z5E/880Z5E/680Z5E"],
    action := video_detect_force_video },
  -- SAMSUNG 370R4E/370R4V/370R5E/3570RE/370R5V
  { fieldMatches := [dmi_match .sys_vendor "SAMSUNG ELECTRONICS CO., LTD.",
                     dmi_match .product_name "370R4E/370R4V/370R5E/3570RE/370R5V"],
    action := video_detect_force_video },
  -- SAMSUNG 3570R/370R/470R/450R/510R/4450RV
  { fieldMatches := [dmi_match .sys_vendor "SAMSUNG ELECTRONICS CO., LTD.",
                     dmi_match .product_name "3570R/370R/470R/450R/510R/4450RV"],
    action := video_detect_force_video },
  -- SAMSUNG 670Z5E
  { fieldMatches := [dmi_match .sys_vendor "SAMSUNG ELECTRONICS CO., LTD.",
                     dmi_match .product_name "670Z5E"],
    action := video_detect_force_video },
  -- SAMSUNG 730U3E/740U3E
  { fieldMatches := [dmi_match .sys_vendor "SAMSUNG ELECTRONICS CO., LTD.",
                     dmi_match .product_name "730U3E/740U3E"],
    action := video_detect_force_video },
  -- SAMSUNG 900X3C/900X3D/900X3E/900X4C/900X4D
  { fieldMatches := [dmi_match .sys_vendor "SAMSUNG ELECTRONICS CO., LTD.",
                     dmi_match .product_name "900X3C/900X3D/900X3E/900X4C/900X4D"],
    action := video_detect_force_video },
  -- Dell XPS14 L421X
  { fieldMatches := [dmi_match .sys_vendor "Dell Inc.",
                     dmi_match .product_name "XPS L421X"],
    action := video_detect_force_video },
  -- Dell XPS15 L521X
  { fieldMatches := [dmi_match .sys_vendor "Dell Inc.",
                     dmi_match .product_name "XPS L521X"],
    action := video_detect_force_video },
  -- SAMSUNG 530U4E/540U4E
  { fieldMatches := [dmi_match .sys_vendor "SAMSUNG ELECTRONICS CO., LTD.",
                     dmi_match .product_name "530U4E/540U4E"],
    action := video_detect_force_video },
  -- HP 635 Notebook
  { fieldMatches := [dmi_match .sys_vendor "Hewlett-Packard",
                     dmi_match .product_name "HP 635 Notebook PC"],
    action := video_detect_force_video },
  -- Lenovo Ideapad S405
  { fieldMatches := [dmi_match .sys_vendor "LENOVO",
                     dmi_match .board_name "Lenovo IdeaPad S405"],
    action := video_detect_force_native },
  -- Lenovo Ideapad Z470
  { fieldMatches := [dmi_match .sys_vendor "LENOVO",
                     dmi_match .product_version "IdeaPad Z470"],
    action := video_detect_force_native },
  -- Lenovo Ideapad Z570
  { fieldMatches := [dmi_match .sys_vendor "LENOVO",
                     dmi_match .product_name "102434U"],
    action := video_detect_force_native },
  -- Lenovo E41-25
  { fieldMatches := [dmi_match .sys_vendor "LENOVO",
                     dmi_match .product_name "81FS"],
    action := video_detect_force_native },
  -- Lenovo E41-45
  { fieldMatches := [dmi_match .sys_vendor "LENOVO",
                     dmi_match .product_name "82BK"],
    action := video_detect_force_native },
  -- Lenovo ThinkPad X131e (3371 AMD version)
  { fieldMatches := [dmi_match .sys_vendor "LENOVO",
                     dmi_match .product_name "3371"],
    action := video_detect_force_native },
  -- Apple iMac11,3
  { fieldMatches := [dmi_match .sys_vendor "Apple Inc.",
                     dmi_match .product_name "iMac11,3"],
    action := video_detect_force_native },
  -- Apple iMac12,1
  { fieldMatches := [dmi_match .sys_vendor "Apple Inc.",
                     dmi_match .product_name "iMac12,1"],
    action := video_detect_force_native },
  -- Apple iMac12,2
  { fieldMatches := [dmi_match .sys_vendor "Apple Inc.",
                     dmi_match .product_name "iMac12,2"],
    action := video_detect_force_native },
  -- Apple MacBook Pro 12,1
  { fieldMatches := [dmi_match .sys_vendor "Apple Inc.",
                     dmi_match .product_name "MacBookPro12,1"],
    action := video_detect_force_native },
  -- Dell Inspiron N4010
  { fieldMatches := [dmi_match .sys_vendor "Dell Inc.",
                     dmi_match .product_name "Inspiron N4010"],
    action := video_detect_force_native },
  -- Dell Vostro V131
  { fieldMatches := [dmi_match .sys_vendor "Dell Inc.",
                     dmi_match .product_name "Vostro V131"],
    action := video_detect_force_native },
  -- Dell XPS 17 L702X
  { fieldMatches := [dmi_match .sys_vendor "Dell Inc.",
                     dmi_match .product_name "Dell System XPS L702X"],
    action := video_detect_force_native },
  -- Dell Precision 7510
  { fieldMatches := [dmi_match .sys_vendor "Dell Inc.",
                     dmi_match .product_name "Precision 7510"],
    action := video_detect_force_native },
  -- Dell Studio 1569
  { fieldMatches := [dmi_match .sys_vendor "Dell Inc.",
                     dmi_match .product_name "Studio 1569"],
    action := video_detect_force_native },
  -- Acer Aspire 3830TG
  { fieldMatches := [dmi_match .sys_vendor "Acer",
                     dmi_match .product_name "Aspire 3830TG"],
    action := video_detect_force_native },
  -- Acer Aspire 5738z
  { fieldMatches := [dmi_match .sys_vendor "Acer",
                     dmi_match .product_name "Aspire 5738",
                     dmi_match .board_name "JV50"],
    action := video_detect_force_native },
  -- Acer TravelMate 5735Z
  { fieldMatches := [dmi_match .sys_vendor "Acer",
                     dmi_match .product_name "TravelMate 5735Z",
                     dmi_match .board_name "BA51_MV"],
    action := video_detect_force_native },
  -- ASUSTeK COMPUTER INC. GA401
  { fieldMatches := [dmi_match .sys_vendor "ASUSTeK COMPUTER INC.",
                     dmi_match .product_name "GA401"],
    action := video_detect_force_native },
  -- ASUSTeK COMPUTER INC. GA502
  { fieldMatches := [dmi_match .sys_vendor "ASUSTeK COMPUTER INC.",
                     dmi_match .product_name "GA502"],
    action := video_detect_force_native },
  -- ASUSTeK COMPUTER INC. GA503
  { fieldMatches := [dmi_match .sys_vendor "ASUSTeK COMPUTER INC.",
                     dmi_match .product_name "GA503"],
    action := video_detect_force_native },
  -- Clevo NL5xRU
  { fieldMatches := [dmi_match .board_name "NL5xRU"],
    action := video_detect_force_native },
  -- Clevo NL5xRU (TUXEDO AURA1501)
  { fieldMatches := [dmi_match .sys_vendor "TUXEDO",
                     dmi_match .board_name "AURA1501"],
    action := video_detect_force_native },
  -- Clevo NL5xRU (TUXEDO EDUBOOK1502)
  { fieldMatches := [dmi_match .sys_vendor "TUXEDO",
                     dmi_match .board_name "EDUBOOK1502"],
    action := video_detect_force_native },
  -- Clevo NL5xNU
  { fieldMatches := [dmi_match .board_name "NL5xNU"],
    action := video_detect_force_native },
  -- TongFang PF5PU1G
  { fieldMatches := [dmi_match .board_name "PF5PU1G"],
    action := video_detect_force_native },
  -- TongFang PF4NU1F
  { fieldMatches := [dmi_match .board_name "PF4NU1F"],
    action := video_detect_force_native },
  -- TongFang PF4NU1F (TUXEDO PULSE1401)
  { fieldMatches := [dmi_match .sys_vendor "TUXEDO",
                     dmi_match .board_name "PULSE1401"],
    action := video_detect_force_native },
  -- TongFang PF5NU1G
  { fieldMatches := [dmi_match .board_name "PF5NU1G"],
    action := video_detect_force_native },
  -- TongFang PF5NU1G (TUXEDO PULSE1501)
  { fieldMatches := [dmi_match .sys_vendor "TUXEDO",
                     dmi_match .board_name "PULSE1501"],
    action := video_detect_force_native },
  -- TongFang PF5LUXG
  { fieldMatches := [dmi_match .board_name "PF5LUXG"],
    action := video_detect_force_native },
  -- Lenovo Yoga Book X90F / X90L
  { fieldMatches := [dmi_exact_match .sys_vendor "Intel Corporation",
                     dmi_exact_match .product_name "CHERRYVIEW D1 PLATFORM",
                     dmi_exact_match .product_version "YETI-11"],
    action := video_detect_force_vendor },
  -- Lenovo Yoga Tablet 2 830F/L or 1050F/L
  { fieldMatches := [dmi_match .sys_vendor "Intel Corp.",
                     dmi_match .product_name "VALLEYVIEW C0 PLATFORM",
                     dmi_match .board_name "BYT-T FFD8",
                     dmi_match .bios_version "BLADE_21"],
    action := video_detect_force_vendor },
  -- Lenovo Yoga Tab 3 Pro YT3-X90F
  { fieldMatches := [dmi_match .sys_vendor "Intel Corporation",
                     dmi_match .product_name "CHERRYVIEW D1 PLATFORM",
                     dmi_match .product_version "Blade3-10A-001"],
    action := video_detect_force_vendor },
  -- Xiaomi Mi Pad 2
  { fieldMatches := [dmi_match .sys_vendor "Xiaomi Inc",
                     dmi_match .product_name "Mipad2"],
    action := video_detect_force_vendor }
]

/-- `acpi_video_parse_cmdline`: five sequential case-sensitive comparisons
of the module-parameter string, each assigning `acpi_backlight_cmdline`. -/
def acpi_video_parse_cmdline (s : String) (cur : BacklightType) : BacklightType :=
  let c := if s == "vendor" then BacklightType.vendor else cur
  let c := if s == "video" then BacklightType.video else c
  let c := if s == "native" then BacklightType.native else c
  let c := if s == "nvidia_wmi_ec" then BacklightType.nvidia_wmi_ec else c
  if s == "none" then BacklightType.none else c

/-- `prefer_native_over_acpi_video`: win8+ OSI or a Google cros EC device. -/
def prefer_native_over_acpi_video (env : Env) : Bool :=
  env.osiWin8 || env.crosEc

/-- The file-scope and function-scope statics of `video_detect.c`:
`acpi_backlight_cmdline`, `acpi_backlight_dmi`, `nvidia_wmi_ec_present`,
`native_available`, `init_done`, and the `ACPI_VIDEO_BACKLIGHT` bit of
`video_caps`. -/
structure ResolutionState where
  acpi_backlight_cmdline : BacklightType
  acpi_backlight_dmi : BacklightType
  nvidia_wmi_ec_present : Bool
  native_available : Bool
  init_done : Bool
  video_caps : Bool
deriving DecidableEq, Repr

/-- Initial values of the statics at process start. -/
def initialState : ResolutionState :=
  { acpi_backlight_cmdline := .undef
    acpi_backlight_dmi := .undef
    nvidia_wmi_ec_present := false
    native_available := false
    init_done := false
    video_caps := false }

/-- The `if (!init_done) { ... }` block of `__acpi_video_get_backlight_type`:
parse the command line, run the DMI quirk check (its callbacks assign
`acpi_backlight_dmi`; when no rule commits the variable keeps its prior
value), OR the namespace-walk result into `video_caps`, probe the nvidia
WMI EC, and set `init_done`. -/
def doInit (env : Env) (s : ResolutionState) : ResolutionState :=
  if s.init_done then s
  else
    { s with
      acpi_backlight_cmdline :=
        acpi_video_parse_cmdline env.acpi_video_backlight_string s.acpi_backlight_cmdline
      acpi_backlight_dmi :=
        (dmi_resolve env video_detect_dmi_table env.ident).getD s.acpi_backlight_dmi
      video_caps := s.video_caps || env.videoCapsScan
      nvidia_wmi_ec_present := env.nvidiaWmiEc
      init_done := true }

/-- The precedence chain of `__acpi_video_get_backlight_type` below the
locked region, returning the chosen type together with the value left in
`*auto_detect`: the out-parameter starts `false` and is flipped to `true`
just after the nvidia-WMI-EC check, before the capability test. -/
def backlight_decide (env : Env) (s : ResolutionState) : BacklightType × Bool :=
  if s.acpi_backlight_cmdline ≠ .undef then (s.acpi_backlight_cmdline, false)
  else if s.acpi_backlight_dmi ≠ .undef then (s.acpi_backlight_dmi, false)
  else if s.nvidia_wmi_ec_present then (.nvidia_wmi_ec, false)
  else if s.video_caps && !(s.native_available && prefer_native_over_acpi_video env) then
    (.video, true)
  else if s.native_available then (.native, true)
  else if env.osiWin8 then (.none, true)
  else (.vendor, true)

/-- `__acpi_video_get_backlight_type(native, auto_detect)`: run the one-time
init under the mutex, record the native hint monotonically, then evaluate
the precedence chain. Returns (chosen type, `*auto_detect` value, new
state). -/
def __acpi_video_get_backlight_type (env : Env) (native : Bool) (s : ResolutionState) :
    BacklightType × Bool × ResolutionState :=
  let s1 := doInit env s
  let s2 := if native then { s1 with native_available := true } else s1
  let r := backlight_decide env s2
  (r.1, r.2, s2)

/-- Modelled from the spec: the header wrapper `acpi_video_get_backlight_type`
(declared in `include/acpi/video.h`, not among these sources) re-runs the
full query without asserting the native hint and without requesting the
autodetection flag, per §6: it is the plain query operation. -/
def acpi_video_get_backlight_type (env : Env) (s : ResolutionState) :
    BacklightType × ResolutionState :=
  let r := __acpi_video_get_backlight_type env false s
  (r.1, r.2.2)

/-- `acpi_video_set_dmi_backlight_type(type)`: store the override, re-run
the query, and unregister the acpi-video backlight interface when the
re-evaluated result is not `video`. Returns (new state, whether
`acpi_video_unregister_backlight` was invoked). -/
def acpi_video_set_dmi_backlight_type (env : Env) (s : ResolutionState)
    (t : BacklightType) : ResolutionState × Bool :=
  let s1 := { s with acpi_backlight_dmi := t }
  let r := acpi_video_get_backlight_type env s1
  (r.2, r.1 ≠ .video)

/-- The externally invocable operations on the shared state. -/
inductive Op where
  | query : Bool → Op
  | setDmi : BacklightType → Op

/-- State effect of one operation. -/
def stepOp (env : Env) (s : ResolutionState) : Op → ResolutionState
  | .query h => (__acpi_video_get_backlight_type env h s).2.2
  | .setDmi t => (acpi_video_set_dmi_backlight_type env s t).1

/-- State after a sequence of operations. -/
def runOps (env : Env) (s : ResolutionState) (ops : List Op) : ResolutionState :=
  ops.foldl (stepOp env) s

/-- Reference precedence function, written from §4.5 of the design
document: the seven steps in order of descending precedence. Used to
compare the implementation against the specified policy. -/
def spec_precedence (env : Env) (s : ResolutionState) : BacklightType :=
  if s.acpi_backlight_cmdline ≠ .undef then s.acpi_backlight_cmdline
  else if s.acpi_backlight_dmi ≠ .undef then s.acpi_backlight_dmi
  else if s.nvidia_wmi_ec_present = true then .nvidia_wmi_ec
  else if s.video_caps = true ∧
      ¬(s.native_available = true ∧ prefer_native_over_acpi_video env = true) then .video
  else if s.native_available = true then .native
  else if env.osiWin8 = true then .none
  else .vendor

/-- The precedence chain from the vendor-EC special case downwards
(steps 3-7): what the query returns on a state with neither override
committed. -/
def autodetect_tail (env : Env) (s : ResolutionState) : BacklightType :=
  if s.nvidia_wmi_ec_present then .nvidia_wmi_ec
  else if s.video_caps && !(s.native_available && prefer_native_over_acpi_video env) then
    .video
  else if s.native_available then .native
  else if env.osiWin8 then .none
  else .vendor

/-- Identity with no populated DMI slot. -/
def blankIdentity : SystemIdentity :=
  ⟨Option.none, Option.none, Option.none, Option.none, Option.none⟩

/-- DMI identity of a Samsung X360, matching the first quirk-table entry. -/
def identX360 : SystemIdentity :=
  ⟨Option.some "SAMSUNG ELECTRONICS CO., LTD.", Option.some "X360",
   Option.some "1.0", Option.some "X360", Option.some "01XX"⟩

/-- Environment with an empty command-line token, a blank identity and
every probe negative. -/
def envPlain : Env :=
  ⟨"", blankIdentity, false, false, false, false, false⟩

/-- Environment of spec scenario E: video-capable, no vendor EC, win8+
OSI, so native is preferred over acpi-video. -/
def envScenarioE : Env :=
  ⟨"", blankIdentity, true, false, true, false, false⟩

/-- Environment whose identity matches the Samsung X360 quirk entry. -/
def envX360 : Env :=
  ⟨"", identX360, false, false, false, false, false⟩

/-- Post-initialization state with no overrides and no capabilities. -/
def stInit : ResolutionState :=
  { initialState with init_done := true }

/-- Post-initialization state with the video capability bit set. -/
def stInitVideo : ResolutionState :=
  { stInit with video_caps := true }

/-- Post-initialization state with the native flag already set. -/
def stInitNative : ResolutionState :=
  { stInit with native_available := true }

/-- Post-initialization state carrying a DMI override of `vendor`. -/
def stInitDmiVendor : ResolutionState :=
  { stInit with acpi_backlight_dmi := .vendor }

/-- Identity matching two quirk rules at once: the ThinkPad W530 entry
(vendor LENOVO, product version containing "ThinkPad W530", forcing
`video`) and the later Ideapad S405 entry (vendor LENOVO, board name
containing "Lenovo IdeaPad S405", forcing `native`). -/
def identDoubleMatch : SystemIdentity :=
  ⟨Option.some "LENOVO", Option.some "2436CTO",
   Option.some "ThinkPad W530", Option.some "Lenovo IdeaPad S405",
   Option.some "G4ET37WW"⟩

/-- Environment carrying the doubly-matching identity. -/
def envDouble : Env :=
  ⟨"", identDoubleMatch, false, false, false, false, false⟩

/- Helper lemmas shared across the development. -/

theorem doInit_of_done {env : Env} {s : ResolutionState} (h : s.init_done = true) :
    doInit env s = s := by
  simp [doInit, h]

theorem doInit_native (env : Env) (s : ResolutionState) :
    (doInit env s).native_available = s.native_available := by
  unfold doInit; split <;> rfl

theorem doInit_done (env : Env) (s : ResolutionState) :
    (doInit env s).init_done = true := by
  unfold doInit; split
  · assumption
  · rfl

theorem query_state (env : Env) (h : Bool) (s : ResolutionState) :
    (__acpi_video_get_backlight_type env h s).2.2 =
      (if h then { doInit env s with native_available := true } else doInit env s) := rfl

theorem query_fst (env : Env) (h : Bool) (s : ResolutionState) :
    (__acpi_video_get_backlight_type env h s).1 =
      (backlight_decide env (__acpi_video_get_backlight_type env h s).2.2).1 := rfl

theorem query_snd (env : Env) (h : Bool) (s : ResolutionState) :
    (__acpi_video_get_backlight_type env h s).2.1 =
      (backlight_decide env (__acpi_video_get_backlight_type env h s).2.2).2 := rfl

theorem query_state_of_done {env : Env} {s : ResolutionState} (b : Bool)
    (h : s.init_done = true) :
    (__acpi_video_get_backlight_type env b s).2.2 =
      (if b then { s with native_available := true } else s) := by
  rw [query_state, doInit_of_done h]

theorem query_done (env : Env) (b : Bool) (s : ResolutionState) :
    ((__acpi_video_get_backlight_type env b s).2.2).init_done = true := by
  rw [query_state]
  cases b <;> simp [doInit_done]

theorem set_native_self {s : ResolutionState} (h : s.native_available = true) :
    { s with native_available := true } = s := by
  cases s
  simp_all

theorem backlight_decide_fst (env : Env) (s : ResolutionState) :
    (backlight_decide env s).1 = spec_precedence env s := by
  unfold backlight_decide spec_precedence
  split_ifs <;> simp_all

theorem backlight_decide_ne_undef (env : Env) (s : ResolutionState) :
    (backlight_decide env s).1 ≠ .undef := by
  unfold backlight_decide
  split_ifs <;> simp_all

/-- Claim C1: on every post-initialization state the query returns exactly
the value of the 7-step precedence reference function taken from the
design document, evaluated on the state with the native hint folded in;
in particular, with video capability, native availability and
prefer-native all set and no overrides and no vendor EC, the result is
`native`, not `video`. -/
theorem claim_C1 (env : Env) (s : ResolutionState) (h : Bool)
    (hinit : s.init_done = true) :
    (__acpi_video_get_backlight_type env h s).1 =
      spec_precedence env { s with native_available := s.native_available || h } := by
  rw [query_fst, ← backlight_decide_fst, query_state_of_done h hinit]
  cases h with
  | false => simp
  | true => simp

/-- Claim C1 witness: scenario E concretely. The state after init has the
video capability bit, the caller asserts the native hint, the OSI is
win8+ (so native is preferred over acpi-video), there are no overrides
and no vendor EC: the result agrees with the reference function and is
`native`. -/
theorem claim_C1_witness :
    stInitVideo.init_done = true ∧
    (__acpi_video_get_backlight_type envScenarioE true stInitVideo).1 =
      spec_precedence envScenarioE
        { stInitVideo with native_available := stInitVideo.native_available || true } ∧
    (__acpi_video_get_backlight_type envScenarioE true stInitVideo).1 =
      BacklightType.native :=
  ⟨rfl, claim_C1 envScenarioE stInitVideo true rfl,
    (claim_C1 envScenarioE stInitVideo true rfl).trans (by decide)⟩

/-- Claim C2: for every state of the statics and every native-hint
argument, the query returns one of the five values `vendor`, `video`,
`native`, `nvidia_wmi_ec`, `none`; it never returns `undef`. -/
theorem claim_C2 (env : Env) (s : ResolutionState) (h : Bool) :
    (__acpi_video_get_backlight_type env h s).1 = .vendor ∨
    (__acpi_video_get_backlight_type env h s).1 = .video ∨
    (__acpi_video_get_backlight_type env h s).1 = .native ∨
    (__acpi_video_get_backlight_type env h s).1 = .nvidia_wmi_ec ∨
    (__acpi_video_get_backlight_type env h s).1 = .none := by
  have hne := backlight_decide_ne_undef env (__acpi_video_get_backlight_type env h s).2.2
  rw [query_fst]
  cases hr : (backlight_decide env (__acpi_video_get_backlight_type env h s).2.2).1 <;>
    simp_all

/-- Claim C4 counterexample: with an empty command line, a blank identity
and every probe negative, the very first query reaches the legacy
`vendor` fallback (step 7), yet the `auto_detect` out-parameter is left
`true`, contradicting the claim that a result from step 7 sets it
`false`. -/
theorem claim_C4_counterexample :
    (__acpi_video_get_backlight_type envPlain false initialState).1 =
      BacklightType.vendor ∧
    ¬ ((__acpi_video_get_backlight_type envPlain false initialState).2.1 = false) := by
  constructor
  · decide
  · decide

/-- Claim C4 amended: the `auto_detect` out-parameter is set `true` exactly
when evaluation reaches the autodetection branch, i.e. when the state the
decision is taken on has no command-line override, no DMI override and no
vendor EC; this includes results produced by the modern-generation `none`
fallback (step 6) and the legacy `vendor` fallback (step 7). -/
theorem claim_C4_amended (env : Env) (s : ResolutionState) (h : Bool) :
    (__acpi_video_get_backlight_type env h s).2.1 = true ↔
      ((__acpi_video_get_backlight_type env h s).2.2).acpi_backlight_cmdline = .undef ∧
      ((__acpi_video_get_backlight_type env h s).2.2).acpi_backlight_dmi = .undef ∧
      ((__acpi_video_get_backlight_type env h s).2.2).nvidia_wmi_ec_present = false := by
  rw [query_snd]
  unfold backlight_decide
  split_ifs <;> simp_all

/-- Claim C9: the command-line parser maps exactly the five case-sensitive
literal tokens to their enum values, and every other string leaves the
override at `undef`. -/
theorem claim_C9 :
    (acpi_video_parse_cmdline "vendor" .undef = .vendor ∧
     acpi_video_parse_cmdline "video" .undef = .video ∧
     acpi_video_parse_cmdline "native" .undef = .native ∧
     acpi_video_parse_cmdline "nvidia_wmi_ec" .undef = .nvidia_wmi_ec ∧
     acpi_video_parse_cmdline "none" .undef = .none) ∧
    ∀ s : String, s ≠ "vendor" → s ≠ "video" → s ≠ "native" →
      s ≠ "nvidia_wmi_ec" → s ≠ "none" →
      acpi_video_parse_cmdline s .undef = .undef := by
  refine ⟨⟨by decide, by decide, by decide, by decide, by decide⟩, ?_⟩
  intro s h1 h2 h3 h4 h5
  simp [acpi_video_parse_cmdline, h1, h2, h3, h4, h5]

/-- Claim C9 witness: the empty string is not one of the five tokens and
parses to `undef`. -/
theorem claim_C9_witness :
    acpi_video_parse_cmdline "" .undef = .undef :=
  claim_C9.2 "" (by decide) (by decide) (by decide) (by decide) (by decide)

theorem dmi_resolve_first (env : Env) (id : SystemIdentity) :
    ∀ (rules : List QuirkRule) (i : Nat) (hi : i < rules.length),
      (∀ k, k < i → ∀ hk2 : k < rules.length,
        (rules.get ⟨k, hk2⟩).commits env id = false) →
      (rules.get ⟨i, hi⟩).commits env id = true →
      dmi_resolve env rules id = Option.some (rules.get ⟨i, hi⟩).action.result ∧
      dmi_resolve_examined env rules id = i + 1 := by
  intro rules
  induction rules with
  | nil => intro i hi; simp at hi
  | cons r rs ih =>
    intro i hi hfirst hcommit
    cases i with
    | zero =>
      refine ⟨?_, ?_⟩ <;> simp [dmi_resolve, dmi_resolve_examined, List.get] at hcommit ⊢ <;>
        simp [hcommit]
    | succ n =>
      have hn : n < rs.length := Nat.lt_of_succ_lt_succ hi
      have h0 : r.commits env id = false := by
        have := hfirst 0 (Nat.succ_pos n) (by simp)
        simpa [List.get] using this
      have htail : ∀ k, k < n → ∀ hk2 : k < rs.length,
          (rs.get ⟨k, hk2⟩).commits env id = false := by
        intro k hk hk2
        have := hfirst (k + 1) (Nat.succ_lt_succ hk) (Nat.succ_lt_succ hk2)
        simpa [List.get] using this
      have hcommit2 : (rs.get ⟨n, hn⟩).commits env id = true := by
        simpa [List.get] using hcommit
      obtain ⟨ha, hb⟩ := ih n hn htail hcommit2
      refine ⟨?_, ?_⟩
      · simpa [dmi_resolve, h0, List.get] using ha
      · simp [dmi_resolve_examined, h0, hb]
        omega

/-- Claim C3: quirk resolution over `video_detect_dmi_table` is
first-match-wins. For every identity on which two rules commit (all field
predicates satisfied, gated probe succeeding), with the earlier of the two
preceded by no committing rule, the resolved override is the earlier
rule's action, and exactly the rules up to and including it are examined,
so no later rule is evaluated. -/
theorem claim_C3 (env : Env) (id : SystemIdentity) (i j : Nat)
    (hi : i < video_detect_dmi_table.length)
    (hj : j < video_detect_dmi_table.length)
    (hij : i < j)
    (hfirst : ∀ k, k < i → ∀ hk2 : k < video_detect_dmi_table.length,
      (video_detect_dmi_table.get ⟨k, hk2⟩).commits env id = false)
    (hcommit_i : (video_detect_dmi_table.get ⟨i, hi⟩).commits env id = true)
    (hcommit_j : (video_detect_dmi_table.get ⟨j, hj⟩).commits env id = true) :
    dmi_resolve env video_detect_dmi_table id =
      Option.some (video_detect_dmi_table.get ⟨i, hi⟩).action.result ∧
    dmi_resolve_examined env video_detect_dmi_table id = i + 1 :=
  dmi_resolve_first env id video_detect_dmi_table i hi hfirst hcommit_i

/-- Claim C3 witness: an identity committing both the ThinkPad W530 rule
(index 9, forcing `video`) and the Ideapad S405 rule (index 25, forcing
`native`): resolution returns `video`, the earlier rule's action, after
examining only the first ten rules. -/
theorem claim_C3_witness :
    dmi_resolve envDouble video_detect_dmi_table identDoubleMatch =
      Option.some BacklightType.video ∧
    dmi_resolve_examined envDouble video_detect_dmi_table identDoubleMatch = 10 := by
  have h := claim_C3 envDouble identDoubleMatch 9 25 (by decide) (by decide) (by decide)
    (by decide) (by decide) (by decide)
  exact ⟨h.1.trans (by decide), h.2⟩

/-- Claim C5: `acpi_video_set_dmi_backlight_type t` (on an initialized
engine) installs `t` as the DMI override, re-runs the query, and invokes
`acpi_video_unregister_backlight` exactly when the re-evaluated result is
not `video`. -/
theorem claim_C5 (env : Env) (s : ResolutionState) (t : BacklightType)
    (hinit : s.init_done = true) :
    ((acpi_video_set_dmi_backlight_type env s t).1).acpi_backlight_dmi = t ∧
    ((acpi_video_set_dmi_backlight_type env s t).2 = true ↔
      (__acpi_video_get_backlight_type env false
        { s with acpi_backlight_dmi := t }).1 ≠ .video) := by
  have h1 : ({ s with acpi_backlight_dmi := t } : ResolutionState).init_done = true :=
    hinit
  constructor
  · show ((__acpi_video_get_backlight_type env false
      { s with acpi_backlight_dmi := t }).2.2).acpi_backlight_dmi = t
    rw [query_state_of_done false h1]
    simp
  · simp [acpi_video_set_dmi_backlight_type, acpi_video_get_backlight_type]

/-- Claim C5 witness: overriding an initialized engine with `vendor`. -/
theorem claim_C5_witness :
    ((acpi_video_set_dmi_backlight_type envPlain stInit .vendor).1).acpi_backlight_dmi =
      .vendor ∧
    ((acpi_video_set_dmi_backlight_type envPlain stInit .vendor).2 = true ↔
      (__acpi_video_get_backlight_type envPlain false
        { stInit with acpi_backlight_dmi := .vendor }).1 ≠ .video) :=
  claim_C5 envPlain stInit .vendor rfl

theorem stepOp_native (env : Env) (s : ResolutionState) (op : Op) :
    (stepOp env s op).native_available =
      (s.native_available ||
        (match op with | Op.query b => b | Op.setDmi _ => false)) := by
  cases op with
  | query b =>
    show ((__acpi_video_get_backlight_type env b s).2.2).native_available = _
    rw [query_state]
    cases b <;> simp [doInit_native]
  | setDmi t =>
    show ((acpi_video_set_dmi_backlight_type env s t).1).native_available = _
    simp [acpi_video_set_dmi_backlight_type, acpi_video_get_backlight_type,
      query_state, doInit_native]

theorem runOps_native_mono (env : Env) (ops : List Op) :
    ∀ s : ResolutionState, s.native_available = true →
      (runOps env s ops).native_available = true := by
  induction ops with
  | nil => intro s hs; exact hs
  | cons op rest ih =>
    intro s hs
    show (runOps env (stepOp env s op) rest).native_available = true
    refine ih _ ?_
    rw [stepOp_native, hs]
    simp

/-- Claim C6: the native flag is monotonic. Once `native_available` is
set, no sequence of queries or overrides ever clears it, and a query with
a `false` native hint leaves the flag exactly as it was. -/
theorem claim_C6 (env : Env) (s : ResolutionState) (ops : List Op) :
    (s.native_available = true → (runOps env s ops).native_available = true) ∧
    (stepOp env s (Op.query false)).native_available = s.native_available := by
  constructor
  · exact runOps_native_mono env ops s
  · rw [stepOp_native]
    simp

/-- Claim C6 witness: a set flag survives a subsequent hint-less query,
and a hint-less query on a cleared flag leaves it cleared. -/
theorem claim_C6_witness :
    (runOps envPlain stInitNative [Op.query false]).native_available = true ∧
    (stepOp envPlain stInit (Op.query false)).native_available =
      stInit.native_available :=
  ⟨(claim_C6 envPlain stInitNative [Op.query false]).1 rfl,
   (claim_C6 envPlain stInit []).2⟩

/-- Claim C7: the heavy initialization block runs exactly once. On a
not-yet-initialized state a query runs it in full, computing the
command-line override, the DMI override, the capability bit and the
vendor-EC flag and setting `init_done`; on an initialized state a query
changes nothing except possibly asserting the native flag, reusing every
cached value. -/
theorem claim_C7 (env : Env) (s : ResolutionState) (h : Bool) :
    (s.init_done = false →
      ((__acpi_video_get_backlight_type env h s).2.2).init_done = true ∧
      ((__acpi_video_get_backlight_type env h s).2.2).acpi_backlight_cmdline =
        acpi_video_parse_cmdline env.acpi_video_backlight_string
          s.acpi_backlight_cmdline ∧
      ((__acpi_video_get_backlight_type env h s).2.2).acpi_backlight_dmi =
        (dmi_resolve env video_detect_dmi_table env.ident).getD s.acpi_backlight_dmi ∧
      ((__acpi_video_get_backlight_type env h s).2.2).video_caps =
        (s.video_caps || env.videoCapsScan) ∧
      ((__acpi_video_get_backlight_type env h s).2.2).nvidia_wmi_ec_present =
        env.nvidiaWmiEc) ∧
    (s.init_done = true →
      (__acpi_video_get_backlight_type env h s).2.2 =
        (if h then { s with native_available := true } else s)) := by
  constructor
  · intro h0
    rw [query_state]
    cases h <;> simp [doInit, h0]
  · intro h1
    exact query_state_of_done h h1

/-- Claim C7 witness: the first query on the pristine state initializes,
and a query on an initialized state is a no-op on the cached fields. -/
theorem claim_C7_witness :
    ((__acpi_video_get_backlight_type envPlain false initialState).2.2).init_done =
      true ∧
    (__acpi_video_get_backlight_type envPlain false stInit).2.2 =
      (if false then { stInit with native_available := true } else stInit) :=
  ⟨((claim_C7 envPlain initialState false).1 rfl).1,
   (claim_C7 envPlain stInit false).2 rfl⟩

/-- Claim C8: the query is idempotent. Two consecutive queries with no
intervening override, where the second passes no native hint or the first
already asserted it, return identical results. -/
theorem claim_C8 (env : Env) (s : ResolutionState) (h1 h2 : Bool)
    (hc : h2 = false ∨ h1 = true) :
    (__acpi_video_get_backlight_type env h2
      ((__acpi_video_get_backlight_type env h1 s).2.2)).1 =
    (__acpi_video_get_backlight_type env h1 s).1 := by
  set s2 := (__acpi_video_get_backlight_type env h1 s).2.2 with hs2
  have hdone : s2.init_done = true := query_done env h1 s
  rw [query_fst env h1 s, query_fst, query_state_of_done h2 hdone]
  rcases hc with hc | hc
  · subst hc
    simp
  · have hnat : s2.native_available = true := by
      subst hc
      rw [hs2, query_state]
      simp
    cases h2
    · simp
    · simp [set_native_self hnat]

/-- Claim C8 witness: two hint-asserting queries in a row agree. -/
theorem claim_C8_witness :
    (__acpi_video_get_backlight_type envPlain true
      ((__acpi_video_get_backlight_type envPlain true stInit).2.2)).1 =
    (__acpi_video_get_backlight_type envPlain true stInit).1 :=
  claim_C8 envPlain stInit true true (Or.inr rfl)

theorem query_preserves_overrides {env : Env} {s : ResolutionState} (b : Bool)
    (h : s.init_done = true) :
    ((__acpi_video_get_backlight_type env b s).2.2).acpi_backlight_dmi =
      s.acpi_backlight_dmi ∧
    ((__acpi_video_get_backlight_type env b s).2.2).acpi_backlight_cmdline =
      s.acpi_backlight_cmdline ∧
    ((__acpi_video_get_backlight_type env b s).2.2).init_done = true := by
  rw [query_state_of_done b h]
  cases b <;> simp [h]

theorem runOps_queries_preserve (env : Env) (hs : List Bool) :
    ∀ s : ResolutionState, s.init_done = true →
      (runOps env s (hs.map Op.query)).acpi_backlight_dmi = s.acpi_backlight_dmi ∧
      (runOps env s (hs.map Op.query)).init_done = true := by
  induction hs with
  | nil => intro s h; exact ⟨rfl, h⟩
  | cons b rest ih =>
    intro s h
    show (runOps env (stepOp env s (Op.query b)) (rest.map Op.query)).acpi_backlight_dmi
        = _ ∧ _
    obtain ⟨hd, _, hi⟩ := query_preserves_overrides b h
    obtain ⟨ha, hb2⟩ := ih _ hi
    exact ⟨ha.trans hd, hb2⟩

theorem backlight_decide_no_override {env : Env} {s : ResolutionState}
    (hc : s.acpi_backlight_cmdline = .undef) (hd : s.acpi_backlight_dmi = .undef) :
    (backlight_decide env s).1 = autodetect_tail env s := by
  unfold backlight_decide autodetect_tail
  rw [if_neg (by simp [hc]), if_neg (by simp [hd])]
  split_ifs <;> rfl

/-- Claim C10: calling the override entry point with the `undef` sentinel
is accepted and clears a previously committed DMI override; the cleared
override survives any further sequence of queries, and a query on a state
with both overrides clear skips the command-line and DMI branches and
returns the vendor-EC / autodetection chain value. -/
theorem claim_C10 (env : Env) (s : ResolutionState) (hinit : s.init_done = true) :
    (((acpi_video_set_dmi_backlight_type env s .undef).1).acpi_backlight_dmi =
        .undef ∧
     ((acpi_video_set_dmi_backlight_type env s .undef).1).init_done = true) ∧
    (∀ σ : ResolutionState, σ.init_done = true → σ.acpi_backlight_dmi = .undef →
      ∀ hs : List Bool,
        (runOps env σ (hs.map Op.query)).acpi_backlight_dmi = .undef ∧
        (runOps env σ (hs.map Op.query)).init_done = true) ∧
    (∀ σ : ResolutionState, σ.init_done = true → σ.acpi_backlight_dmi = .undef →
      σ.acpi_backlight_cmdline = .undef →
      ∀ b : Bool, (__acpi_video_get_backlight_type env b σ).1 =
        autodetect_tail env ((__acpi_video_get_backlight_type env b σ).2.2)) := by
  have h1 : ({ s with acpi_backlight_dmi := BacklightType.undef } :
      ResolutionState).init_done = true := hinit
  refine ⟨⟨?_, ?_⟩, ?_, ?_⟩
  · show ((__acpi_video_get_backlight_type env false
      { s with acpi_backlight_dmi := BacklightType.undef }).2.2).acpi_backlight_dmi = _
    rw [query_state_of_done false h1]
    simp
  · show ((__acpi_video_get_backlight_type env false
      { s with acpi_backlight_dmi := BacklightType.undef }).2.2).init_done = true
    exact query_done env false _
  · intro σ ha hb hs
    obtain ⟨hx, hy⟩ := runOps_queries_preserve env hs σ ha
    exact ⟨hx.trans hb, hy⟩
  · intro σ ha hb hcm b
    rw [query_fst]
    obtain ⟨hd, hc, _⟩ := query_preserves_overrides b ha
    exact backlight_decide_no_override (hc.trans hcm) (hd.trans hb)

/-- Claim C10 witness: clearing a committed `vendor` override, then a
hint-less query; both overrides clear makes the query return the
autodetection-chain value. -/
theorem claim_C10_witness :
    ((acpi_video_set_dmi_backlight_type envPlain stInitDmiVendor .undef).1).acpi_backlight_dmi =
      .undef ∧
    (runOps envPlain stInit ([false].map Op.query)).acpi_backlight_dmi = .undef ∧
    (__acpi_video_get_backlight_type envPlain false stInit).1 =
      autodetect_tail envPlain
        ((__acpi_video_get_backlight_type envPlain false stInit).2.2) :=
  ⟨((claim_C10 envPlain stInitDmiVendor rfl).1).1,
   (((claim_C10 envPlain stInitDmiVendor rfl).2.1) stInit rfl rfl [false]).1,
   ((claim_C10 envPlain stInitDmiVendor rfl).2.2) stInit rfl rfl rfl false⟩

end VideoDetect
